import Mathlib

/-!
Verification of the geofencing service of the panic-alert system.

The development shallowly embeds the code that the claims reference:

* `backend/shared/location.py` — the Haversine distance
  (`calculate_distance`) and the circular containment test
  (`is_point_in_circle`), modelled over the real numbers.

* `backend/geofencing_service/router.py` — the endpoint handlers
  `create_geofence`, `get_geofence`, `update_geofence`, `delete_geofence`
  and `update_location`.  The database session is modelled as an explicit
  `DB` value (the stored geofences and geofence events); each handler maps
  the incoming request and the current database to a result
  (`Except HErr …`, where an error carries the HTTP status code and detail
  string) together with the database after commit/rollback.  Timestamps
  are integers (seconds); `datetime.utcnow()` becomes an explicit `now`
  parameter; the Haversine evaluation inside `update_location` is
  abstracted as a distance-function parameter `dist`, applied exactly as
  the source applies `calculate_distance`.
-/

namespace PanicAlert

/-! ## Geometry (backend/shared/location.py), over ℝ -/

/-- math.radians: degrees to radians. -/
noncomputable def radians (deg : ℝ) : ℝ := deg * (Real.pi / 180)

/-- calculate_distance from backend/shared/location.py: Haversine
great-circle distance in meters, Earth radius 6371000 m. -/
noncomputable def calculate_distance (lat1 lon1 lat2 lon2 : ℝ) : ℝ :=
  let lat1_rad := radians lat1
  let lon1_rad := radians lon1
  let lat2_rad := radians lat2
  let lon2_rad := radians lon2
  let dlat := lat2_rad - lat1_rad
  let dlon := lon2_rad - lon1_rad
  let a := Real.sin (dlat / 2) ^ 2 +
    Real.cos lat1_rad * Real.cos lat2_rad * Real.sin (dlon / 2) ^ 2
  let c := 2 * Real.arcsin (Real.sqrt a)
  6371000 * c

/-- is_point_in_circle from backend/shared/location.py:
distance from the center at most the radius. -/
def is_point_in_circle (point_lat point_lon center_lat center_lon
    radius_meters : ℝ) : Prop :=
  calculate_distance point_lat point_lon center_lat center_lon ≤ radius_meters

/-! ## Data model (backend/geofencing_service) -/

/-- EventType as used by the router (GeofenceEventType in models.py). -/
inductive EventType where
  | enter
  | exit
  | dwell
  | breach
deriving DecidableEq, Repr

/-- The fields of a stored geofence row that the router handlers read and
write.  Coordinates, radii and times are integers; ids are naturals. -/
structure Geofence where
  id : Nat
  user_id : Nat
  name : String
  latitude : ℤ
  longitude : ℤ
  radius_meters : ℤ
  is_active : Bool
  notify_on_enter : Bool
  notify_on_exit : Bool
deriving DecidableEq, Repr

/-- The fields of a stored GeofenceEvent row that the router reads and
writes.  created_at is the server clock at creation. -/
structure GeofenceEvent where
  geofence_id : Nat
  user_id : Nat
  event_type : EventType
  latitude : ℤ
  longitude : ℤ
  distance_meters : ℤ
  created_at : ℤ
deriving DecidableEq, Repr

/-- LocationUpdate request schema (geofencing_service/schemas.py):
latitude, longitude, optional accuracy and optional timestamp. -/
structure LocationUpdate where
  latitude : ℤ
  longitude : ℤ
  accuracy : Option ℤ
  timestamp : Option ℤ
deriving DecidableEq, Repr

/-- GeofenceCreate request schema fields the create handler uses. -/
structure GeofenceCreate where
  name : String
  latitude : ℤ
  longitude : ℤ
  radius_meters : ℤ
  is_active : Bool
  notify_on_enter : Bool
  notify_on_exit : Bool
deriving DecidableEq, Repr

/-- GeofenceUpdate request schema: every field optional. -/
structure GeofenceUpdate where
  name : Option String
  latitude : Option ℤ
  longitude : Option ℤ
  radius_meters : Option ℤ
  is_active : Option Bool
  notify_on_enter : Option Bool
  notify_on_exit : Option Bool
deriving DecidableEq, Repr

/-- The database state the geofencing handlers touch. -/
structure DB where
  geofences : List Geofence
  events : List GeofenceEvent
deriving DecidableEq, Repr

/-- An HTTP error: status code and detail string. -/
def HErr := Nat × String
deriving instance DecidableEq, Repr for HErr

/-! ## Query helpers -/

/-- SQLAlchemy scalar_one_or_none on the rows of a query: none for zero
rows, the row for one, and a MultipleResultsFound error otherwise. -/
def scalarOneOrNone {α : Type} (rows : List α) : Except String (Option α) :=
  match rows with
  | [] => Except.ok none
  | [a] => Except.ok (some a)
  | _ => Except.error "MultipleResultsFound"

/-- The recent-event query of update_location: stored events of the
(geofence, user) pair with created_at within the last 5 minutes
(created_at >= utcnow() - timedelta(minutes=5)). -/
def recentEvents (now : ℤ) (gid uid : Nat) (events : List GeofenceEvent) :
    List GeofenceEvent :=
  events.filter fun e =>
    e.geofence_id == gid && e.user_id == uid && decide (now - 300 ≤ e.created_at)

/-- The active geofences of a user, as queried by update_location. -/
def activeGeofences (uid : Nat) (db : DB) : List Geofence :=
  db.geofences.filter fun g => g.user_id == uid && g.is_active

/-! ## update_location (router.py) -/

/-- The body of the per-geofence loop of update_location: compute the
distance from the sample to the geofence center, test containment
against the declared radius (inclusive), look up the most recent event of
the pair within the last 5 minutes, and decide whether to create an
ENTER or EXIT event.  `dist` stands for calculate_distance, applied to
(sample, center) exactly as in the source. -/
def evalGeofence (now : ℤ) (uid : Nat) (loc : LocationUpdate)
    (dist : ℤ → ℤ → ℤ → ℤ → ℤ) (events : List GeofenceEvent)
    (g : Geofence) : Except String (Option GeofenceEvent) :=
  let distance := dist loc.latitude loc.longitude g.latitude g.longitude
  let is_inside := decide (distance ≤ g.radius_meters)
  match scalarOneOrNone (recentEvents now g.id uid events) with
  | Except.error e => Except.error e
  | Except.ok recent_event =>
    let decision : Option EventType :=
      if is_inside && g.notify_on_enter then
        match recent_event with
        | none => some EventType.enter
        | some e =>
          if e.event_type = EventType.exit then some EventType.enter else none
      else if !is_inside && g.notify_on_exit then
        match recent_event with
        | none => none
        | some e =>
          if e.event_type = EventType.enter then some EventType.exit else none
      else none
    Except.ok (decision.map fun ty =>
      { geofence_id := g.id
        user_id := uid
        event_type := ty
        latitude := loc.latitude
        longitude := loc.longitude
        distance_meters := distance
        created_at := now })

/-- The loop of update_location over the active geofences: any error
propagates (the single try/except wraps the whole loop), otherwise the
created events are collected. -/
def processGeofences (now : ℤ) (uid : Nat) (loc : LocationUpdate)
    (dist : ℤ → ℤ → ℤ → ℤ → ℤ) (events : List GeofenceEvent) :
    List Geofence → Except String (List GeofenceEvent)
  | [] => Except.ok []
  | g :: gs =>
    match evalGeofence now uid loc dist events g with
    | Except.error e => Except.error e
    | Except.ok none => processGeofences now uid loc dist events gs
    | Except.ok (some ev) =>
      match processGeofences now uid loc dist events gs with
      | Except.error e => Except.error e
      | Except.ok evs => Except.ok (ev :: evs)

/-- update_location: fetch the user's active geofences, run the loop, and
either commit the created events or (on any exception) roll back and
return HTTP 500. -/
def update_location (now : ℤ) (uid : Nat) (loc : LocationUpdate)
    (dist : ℤ → ℤ → ℤ → ℤ → ℤ) (db : DB) :
    Except HErr (List GeofenceEvent) × DB :=
  match processGeofences now uid loc dist db.events (activeGeofences uid db) with
  | Except.error e =>
    (Except.error (500, "Failed to update location: " ++ e), db)
  | Except.ok evs =>
    (Except.ok evs, { db with events := db.events ++ evs })

/-! ## create_geofence and CRUD (router.py) -/

/-- The geofence row create_geofence builds from the request. -/
def mkGeofence (uid newId : Nat) (data : GeofenceCreate) : Geofence :=
  { id := newId
    user_id := uid
    name := data.name
    latitude := data.latitude
    longitude := data.longitude
    radius_meters := data.radius_meters
    is_active := data.is_active
    notify_on_enter := data.notify_on_enter
    notify_on_exit := data.notify_on_exit }

/-- create_geofence: count the user's active geofences; at 10 or more,
reject with HTTP 400 and persist nothing; otherwise insert and return the
new geofence. -/
def create_geofence (uid newId : Nat) (data : GeofenceCreate) (db : DB) :
    Except HErr Geofence × DB :=
  let geofence_count := (activeGeofences uid db).length
  if 10 ≤ geofence_count then
    (Except.error (400, "Maximum of 10 active geofences allowed"), db)
  else
    let g := mkGeofence uid newId data
    (Except.ok g, { db with geofences := db.geofences ++ [g] })

/-- The owner-scoped lookup shared by get/update/delete: the stored
geofences whose id is the requested one and whose user_id is the
requesting user. -/
def ownedLookup (uid gid : Nat) (db : DB) : List Geofence :=
  db.geofences.filter fun g => g.id == gid && g.user_id == uid

/-- get_geofence: owner-scoped select; 404 when no row matches. -/
def get_geofence (uid gid : Nat) (db : DB) : Except HErr Geofence × DB :=
  match scalarOneOrNone (ownedLookup uid gid db) with
  | Except.error e => (Except.error (500, "Failed to retrieve geofence: " ++ e), db)
  | Except.ok none => (Except.error (404, "Geofence not found"), db)
  | Except.ok (some g) => (Except.ok g, db)

/-- Apply the optional fields of a GeofenceUpdate to a geofence row. -/
def applyUpdate (data : GeofenceUpdate) (g : Geofence) : Geofence :=
  { g with
    name := data.name.getD g.name
    latitude := data.latitude.getD g.latitude
    longitude := data.longitude.getD g.longitude
    radius_meters := data.radius_meters.getD g.radius_meters
    is_active := data.is_active.getD g.is_active
    notify_on_enter := data.notify_on_enter.getD g.notify_on_enter
    notify_on_exit := data.notify_on_exit.getD g.notify_on_exit }

/-- update_geofence: owner-scoped select; 404 when no row matches (no
modification), otherwise update the row in place and commit. -/
def update_geofence (uid gid : Nat) (data : GeofenceUpdate) (db : DB) :
    Except HErr Geofence × DB :=
  match scalarOneOrNone (ownedLookup uid gid db) with
  | Except.error e => (Except.error (500, "Failed to update geofence: " ++ e), db)
  | Except.ok none => (Except.error (404, "Geofence not found"), db)
  | Except.ok (some g) =>
    let g2 := applyUpdate data g
    (Except.ok g2,
      { db with geofences := db.geofences.map fun x => if x = g then g2 else x })

/-- delete_geofence: owner-scoped select; 404 when no row matches (no
modification), otherwise delete the row and commit. -/
def delete_geofence (uid gid : Nat) (db : DB) : Except HErr Unit × DB :=
  match scalarOneOrNone (ownedLookup uid gid db) with
  | Except.error e => (Except.error (500, "Failed to delete geofence: " ++ e), db)
  | Except.ok none => (Except.error (404, "Geofence not found"), db)
  | Except.ok (some g) =>
    (Except.ok (), { db with geofences := db.geofences.erase g })

/-! ## Structural lemmas about the update_location loop -/

/-- Membership in the recent-event query result gives membership in the
store together with the filter conditions. -/
theorem mem_recentEvents {now : ℤ} {gid uid : Nat}
    {events : List GeofenceEvent} {e : GeofenceEvent}
    (h : e ∈ recentEvents now gid uid events) :
    e ∈ events ∧ e.geofence_id = gid ∧ e.user_id = uid ∧
      now - 300 ≤ e.created_at := by
  unfold recentEvents at h
  rw [List.mem_filter] at h
  rcases h with ⟨hm, hp⟩
  simp only [Bool.and_eq_true, beq_iff_eq, decide_eq_true_eq] at hp
  exact ⟨hm, hp.1.1, hp.1.2, hp.2⟩

/-- Anatomy of a created event: when the per-geofence evaluation creates
an event, the event carries the geofence id, the user id, the server
time, its type is ENTER or EXIT, and an EXIT is only created when the
recent-event query returned a single ENTER event. -/
theorem evalGeofence_ok_some {now : ℤ} {uid : Nat} {loc : LocationUpdate}
    {dist : ℤ → ℤ → ℤ → ℤ → ℤ} {events : List GeofenceEvent} {g : Geofence}
    {ev : GeofenceEvent}
    (h : evalGeofence now uid loc dist events g = Except.ok (some ev)) :
    ev.geofence_id = g.id ∧ ev.user_id = uid ∧ ev.created_at = now ∧
    (ev.event_type = EventType.enter ∨ ev.event_type = EventType.exit) ∧
    (ev.event_type = EventType.exit →
      ∃ e ∈ recentEvents now g.id uid events,
        e.event_type = EventType.enter) := by
  unfold evalGeofence at h
  cases hl : recentEvents now g.id uid events with
  | nil =>
    rw [hl] at h
    simp only [scalarOneOrNone] at h
    split_ifs at h
    · simp only [Option.map_some', Except.ok.injEq, Option.some.injEq] at h
      subst h
      simp
    · simp at h
    · simp at h
  | cons e rest =>
    cases rest with
    | nil =>
      rw [hl] at h
      simp only [scalarOneOrNone] at h
      split_ifs at h with h1 h2 h3 h4
      · simp only [Option.map_some', Except.ok.injEq, Option.some.injEq] at h
        subst h
        simp
      · simp at h
      · simp only [Option.map_some', Except.ok.injEq, Option.some.injEq] at h
        subst h
        exact ⟨rfl, rfl, rfl, Or.inr rfl,
          fun _ => ⟨e, List.mem_singleton_self e, h4⟩⟩
      · simp at h
      · simp at h
    | cons e2 rest2 =>
      rw [hl] at h
      simp [scalarOneOrNone] at h

/-- Every event in a successful run of the update_location loop was
created by the evaluation of one of the geofences in the list. -/
theorem processGeofences_mem {now : ℤ} {uid : Nat} {loc : LocationUpdate}
    {dist : ℤ → ℤ → ℤ → ℤ → ℤ} {events : List GeofenceEvent} :
    ∀ {gs : List Geofence} {evs : List GeofenceEvent} {ev : GeofenceEvent},
    processGeofences now uid loc dist events gs = Except.ok evs → ev ∈ evs →
    ∃ g ∈ gs, evalGeofence now uid loc dist events g = Except.ok (some ev) := by
  intro gs
  induction gs with
  | nil =>
    intro evs ev h hm
    simp only [processGeofences, Except.ok.injEq] at h
    subst h
    cases hm
  | cons g gs ih =>
    intro evs ev h hm
    unfold processGeofences at h
    cases he : evalGeofence now uid loc dist events g with
    | error e => rw [he] at h; cases h
    | ok o =>
      cases o with
      | none =>
        rw [he] at h
        obtain ⟨g', hg', hev⟩ := ih h hm
        exact ⟨g', List.mem_cons_of_mem g hg', hev⟩
      | some ev' =>
        rw [he] at h
        cases hp : processGeofences now uid loc dist events gs with
        | error e => rw [hp] at h; cases h
        | ok evs' =>
          rw [hp] at h
          simp only [Except.ok.injEq] at h
          subst h
          cases hm with
          | head => exact ⟨g, List.mem_cons_self g gs, he⟩
          | tail b hm =>
            obtain ⟨g', hg', hev⟩ := ih hp hm
            exact ⟨g', List.mem_cons_of_mem g hg', hev⟩

/-- An evaluation error at any geofence of the list makes the whole loop
fail. -/
theorem processGeofences_error {now : ℤ} {uid : Nat} {loc : LocationUpdate}
    {dist : ℤ → ℤ → ℤ → ℤ → ℤ} {events : List GeofenceEvent} :
    ∀ {gs : List Geofence} {g : Geofence} {msg : String},
    g ∈ gs → evalGeofence now uid loc dist events g = Except.error msg →
    ∃ m, processGeofences now uid loc dist events gs = Except.error m := by
  intro gs
  induction gs with
  | nil => intro g msg hg _; cases hg
  | cons g0 gs ih =>
    intro g msg hg he
    cases hg with
    | head => exact ⟨msg, by unfold processGeofences; rw [he]⟩
    | tail b hg =>
      cases he0 : evalGeofence now uid loc dist events g0 with
      | error e => exact ⟨e, by unfold processGeofences; rw [he0]⟩
      | ok o =>
        obtain ⟨m, hm⟩ := ih hg he
        cases o with
        | none => exact ⟨m, by unfold processGeofences; rw [he0]; exact hm⟩
        | some ev' => exact ⟨m, by unfold processGeofences; rw [he0, hm]⟩

/-! ## Claims about update_location -/

/-- Claim C9: an EXIT event is emitted only when a stored event of the
same (user, geofence) pair created within the last 5 minutes exists and
its type is ENTER; hence the first event ever emitted for a pair is never
EXIT, and a sample outside the zone emits no EXIT when the stored events
of the pair are all older than 5 minutes. -/
theorem claim_C9 (now : ℤ) (uid : Nat) (loc : LocationUpdate)
    (dist : ℤ → ℤ → ℤ → ℤ → ℤ) (db : DB) (evs : List GeofenceEvent)
    (db' : DB) (ev : GeofenceEvent)
    (h : update_location now uid loc dist db = (Except.ok evs, db'))
    (hm : ev ∈ evs) (hx : ev.event_type = EventType.exit) :
    ∃ e ∈ db.events, e.geofence_id = ev.geofence_id ∧ e.user_id = uid ∧
      now - 300 ≤ e.created_at ∧ e.event_type = EventType.enter := by
  unfold update_location at h
  cases hp : processGeofences now uid loc dist db.events
      (activeGeofences uid db) with
  | error e => rw [hp] at h; simp at h
  | ok evs0 =>
    rw [hp] at h
    simp only [Prod.mk.injEq, Except.ok.injEq] at h
    obtain ⟨hev, _⟩ := h
    subst hev
    obtain ⟨g, _, hev⟩ := processGeofences_mem hp hm
    obtain ⟨hid, _, _, _, hexit⟩ := evalGeofence_ok_some hev
    obtain ⟨e, he, hent⟩ := hexit hx
    obtain ⟨hmem, hgid, huid, htime⟩ := mem_recentEvents he
    exact ⟨e, hmem, hgid.trans hid.symm, huid, htime, hent⟩

/-- Witness for C9: a concrete sample at distance 220 from a radius-200
zone, with a stored ENTER 60 seconds old, emits EXIT; the theorem then
recovers the recent stored ENTER. -/
theorem claim_C9_witness :
    ∃ e ∈ ([⟨1, 7, EventType.enter, 40, -75, 150, 940⟩] :
        List GeofenceEvent),
      e.geofence_id = 1 ∧ e.user_id = 7 ∧ (1000:ℤ) - 300 ≤ e.created_at ∧
      e.event_type = EventType.enter :=
  claim_C9 1000 7 ⟨40, -75, none, none⟩ (fun _ _ _ _ => 220)
    ⟨[⟨1, 7, "home", 40, -75, 200, true, true, true⟩],
     [⟨1, 7, EventType.enter, 40, -75, 150, 940⟩]⟩
    [⟨1, 7, EventType.exit, 40, -75, 220, 1000⟩]
    ⟨[⟨1, 7, "home", 40, -75, 200, true, true, true⟩],
     [⟨1, 7, EventType.enter, 40, -75, 150, 940⟩,
      ⟨1, 7, EventType.exit, 40, -75, 220, 1000⟩]⟩
    ⟨1, 7, EventType.exit, 40, -75, 220, 1000⟩
    rfl (List.mem_singleton_self _) rfl

/-- Counterexample to C4: dwell threshold 5 minutes, samples inside at
t = 0, 2, 4, 6 minutes (server times 0, 120, 240, 360 s).  The claim says
DWELL is emitted exactly once, at the t = 6 min sample.  The code reads no
dwell field at all: it emits ENTER at t = 0, nothing at t = 2 and 4 min,
and at t = 6 min it emits a second ENTER (the 5-minute recent-event
window has expired) — never a DWELL. -/
theorem claim_C4_counterexample :
    update_location 0 7 ⟨40, -75, none, none⟩ (fun _ _ _ _ => 150)
      ⟨[⟨1, 7, "home", 40, -75, 200, true, true, true⟩], []⟩ =
      (Except.ok [⟨1, 7, EventType.enter, 40, -75, 150, 0⟩],
       ⟨[⟨1, 7, "home", 40, -75, 200, true, true, true⟩],
        [⟨1, 7, EventType.enter, 40, -75, 150, 0⟩]⟩) ∧
    update_location 120 7 ⟨40, -75, none, none⟩ (fun _ _ _ _ => 150)
      ⟨[⟨1, 7, "home", 40, -75, 200, true, true, true⟩],
       [⟨1, 7, EventType.enter, 40, -75, 150, 0⟩]⟩ =
      (Except.ok [],
       ⟨[⟨1, 7, "home", 40, -75, 200, true, true, true⟩],
        [⟨1, 7, EventType.enter, 40, -75, 150, 0⟩]⟩) ∧
    update_location 240 7 ⟨40, -75, none, none⟩ (fun _ _ _ _ => 150)
      ⟨[⟨1, 7, "home", 40, -75, 200, true, true, true⟩],
       [⟨1, 7, EventType.enter, 40, -75, 150, 0⟩]⟩ =
      (Except.ok [],
       ⟨[⟨1, 7, "home", 40, -75, 200, true, true, true⟩],
        [⟨1, 7, EventType.enter, 40, -75, 150, 0⟩]⟩) ∧
    update_location 360 7 ⟨40, -75, none, none⟩ (fun _ _ _ _ => 150)
      ⟨[⟨1, 7, "home", 40, -75, 200, true, true, true⟩],
       [⟨1, 7, EventType.enter, 40, -75, 150, 0⟩]⟩ =
      (Except.ok [⟨1, 7, EventType.enter, 40, -75, 150, 360⟩],
       ⟨[⟨1, 7, "home", 40, -75, 200, true, true, true⟩],
        [⟨1, 7, EventType.enter, 40, -75, 150, 0⟩,
         ⟨1, 7, EventType.enter, 40, -75, 150, 360⟩]⟩) ∧
    (⟨1, 7, EventType.enter, 40, -75, 150, 360⟩ :
      GeofenceEvent).event_type ≠ EventType.dwell :=
  ⟨rfl, rfl, rfl, rfl, by decide⟩

/-- Claim C4 amended: update_location never emits DWELL — the dwell
trigger is unimplemented in the evaluation path; every event the handler
creates is ENTER or EXIT. -/
theorem claim_C4_amended (now : ℤ) (uid : Nat) (loc : LocationUpdate)
    (dist : ℤ → ℤ → ℤ → ℤ → ℤ) (db : DB) (evs : List GeofenceEvent)
    (db' : DB) (ev : GeofenceEvent)
    (h : update_location now uid loc dist db = (Except.ok evs, db'))
    (hm : ev ∈ evs) :
    ev.event_type = EventType.enter ∨ ev.event_type = EventType.exit := by
  unfold update_location at h
  cases hp : processGeofences now uid loc dist db.events
      (activeGeofences uid db) with
  | error e => rw [hp] at h; simp at h
  | ok evs0 =>
    rw [hp] at h
    simp only [Prod.mk.injEq, Except.ok.injEq] at h
    obtain ⟨hev, _⟩ := h
    subst hev
    obtain ⟨g, _, hev⟩ := processGeofences_mem hp hm
    exact (evalGeofence_ok_some hev).2.2.2.1

/-- Witness for the amended C4: the ENTER created at t = 0 in the dwell
scenario is of type ENTER or EXIT. -/
theorem claim_C4_amended_witness :
    (⟨1, 7, EventType.enter, 40, -75, 150, 0⟩ :
        GeofenceEvent).event_type = EventType.enter ∨
    (⟨1, 7, EventType.enter, 40, -75, 150, 0⟩ :
        GeofenceEvent).event_type = EventType.exit :=
  claim_C4_amended 0 7 ⟨40, -75, none, none⟩ (fun _ _ _ _ => 150)
    ⟨[⟨1, 7, "home", 40, -75, 200, true, true, true⟩], []⟩
    [⟨1, 7, EventType.enter, 40, -75, 150, 0⟩]
    ⟨[⟨1, 7, "home", 40, -75, 200, true, true, true⟩],
     [⟨1, 7, EventType.enter, 40, -75, 150, 0⟩]⟩
    ⟨1, 7, EventType.enter, 40, -75, 150, 0⟩
    rfl (List.mem_singleton_self _)

/-- Counterexample to C5: two active zones of user 7; the stored events
hold two events of zone 1 within the last 5 minutes, so zone 1's
recent-event lookup (scalar_one_or_none) raises MultipleResultsFound.
The single try/except of update_location turns that per-zone error into a
rollback of the whole request: zone 2, whose isolated evaluation would
create an ENTER event (second conjunct), produces nothing. -/
theorem claim_C5_counterexample :
    update_location 1000 7 ⟨40, -75, none, none⟩ (fun _ _ _ _ => 150)
      ⟨[⟨1, 7, "a", 40, -75, 200, true, true, true⟩,
        ⟨2, 7, "b", 41, -75, 200, true, true, true⟩],
       [⟨1, 7, EventType.enter, 40, -75, 150, 900⟩,
        ⟨1, 7, EventType.exit, 40, -75, 250, 950⟩]⟩ =
      (Except.error (500, "Failed to update location: MultipleResultsFound"),
       ⟨[⟨1, 7, "a", 40, -75, 200, true, true, true⟩,
         ⟨2, 7, "b", 41, -75, 200, true, true, true⟩],
        [⟨1, 7, EventType.enter, 40, -75, 150, 900⟩,
         ⟨1, 7, EventType.exit, 40, -75, 250, 950⟩]⟩) ∧
    evalGeofence 1000 7 ⟨40, -75, none, none⟩ (fun _ _ _ _ => 150)
      [⟨1, 7, EventType.enter, 40, -75, 150, 900⟩,
       ⟨1, 7, EventType.exit, 40, -75, 250, 950⟩]
      ⟨2, 7, "b", 41, -75, 200, true, true, true⟩ =
      Except.ok (some ⟨2, 7, EventType.enter, 40, -75, 150, 1000⟩) :=
  ⟨rfl, rfl⟩

/-- Claim C5 amended: an error raised while evaluating any single active
zone aborts the whole evaluation — update_location fails with HTTP 500
and the database is rolled back, so sibling zones' events are discarded
rather than persisted. -/
theorem claim_C5_amended (now : ℤ) (uid : Nat) (loc : LocationUpdate)
    (dist : ℤ → ℤ → ℤ → ℤ → ℤ) (db : DB) (g : Geofence) (msg : String)
    (hg : g ∈ activeGeofences uid db)
    (he : evalGeofence now uid loc dist db.events g = Except.error msg) :
    ∃ m, update_location now uid loc dist db =
      (Except.error (500, "Failed to update location: " ++ m), db) := by
  obtain ⟨m, hm⟩ := processGeofences_error hg he
  exact ⟨m, by unfold update_location; rw [hm]⟩

/-- Witness for the amended C5, at the two-zone scenario of the
counterexample. -/
theorem claim_C5_amended_witness :
    ∃ m, update_location 1000 7 ⟨40, -75, none, none⟩ (fun _ _ _ _ => 150)
      ⟨[⟨1, 7, "a", 40, -75, 200, true, true, true⟩,
        ⟨2, 7, "b", 41, -75, 200, true, true, true⟩],
       [⟨1, 7, EventType.enter, 40, -75, 150, 900⟩,
        ⟨1, 7, EventType.exit, 40, -75, 250, 950⟩]⟩ =
      (Except.error (500, "Failed to update location: " ++ m),
       ⟨[⟨1, 7, "a", 40, -75, 200, true, true, true⟩,
         ⟨2, 7, "b", 41, -75, 200, true, true, true⟩],
        [⟨1, 7, EventType.enter, 40, -75, 150, 900⟩,
         ⟨1, 7, EventType.exit, 40, -75, 250, 950⟩]⟩) :=
  claim_C5_amended 1000 7 ⟨40, -75, none, none⟩ (fun _ _ _ _ => 150)
    ⟨[⟨1, 7, "a", 40, -75, 200, true, true, true⟩,
      ⟨2, 7, "b", 41, -75, 200, true, true, true⟩],
     [⟨1, 7, EventType.enter, 40, -75, 150, 900⟩,
      ⟨1, 7, EventType.exit, 40, -75, 250, 950⟩]⟩
    ⟨1, 7, "a", 40, -75, 200, true, true, true⟩
    "MultipleResultsFound" (by decide) rfl

/-- Counterexample to C1: circle of radius 200 with the claimed 50 m
hysteresis buffer; the user's last recorded event is a recent ENTER.  A
sample at distance 220 — strictly greater than the radius but at most
radius + 50 — is claimed to emit no EXIT, yet the code emits EXIT: the
containment test is a single inclusive comparison against the declared
radius, with no exit radius. -/
theorem claim_C1_counterexample :
    (200:ℤ) < 220 ∧ (220:ℤ) ≤ 200 + 50 ∧
    update_location 1000 7 ⟨40, -75, none, none⟩ (fun _ _ _ _ => 220)
      ⟨[⟨1, 7, "home", 40, -75, 200, true, true, true⟩],
       [⟨1, 7, EventType.enter, 40, -75, 150, 940⟩]⟩ =
      (Except.ok [⟨1, 7, EventType.exit, 40, -75, 220, 1000⟩],
       ⟨[⟨1, 7, "home", 40, -75, 200, true, true, true⟩],
        [⟨1, 7, EventType.enter, 40, -75, 150, 940⟩,
         ⟨1, 7, EventType.exit, 40, -75, 220, 1000⟩]⟩) :=
  ⟨by decide, by decide, rfl⟩

/-- Claim C1 amended: there is no hysteresis buffer.  When the
recent-event query of the (user, geofence) pair returns exactly one
event and it is an ENTER, and the exit trigger is set, a sample at
distance strictly greater than the declared radius emits EXIT, while a
sample at distance at most the radius (in particular exactly on it,
which counts as inside) emits nothing. -/
theorem claim_C1_amended (now : ℤ) (uid : Nat) (loc : LocationUpdate)
    (dist : ℤ → ℤ → ℤ → ℤ → ℤ) (events : List GeofenceEvent) (g : Geofence)
    (e : GeofenceEvent)
    (hrec : recentEvents now g.id uid events = [e])
    (henter : e.event_type = EventType.enter)
    (hexit : g.notify_on_exit = true) :
    (g.radius_meters < dist loc.latitude loc.longitude g.latitude g.longitude →
      evalGeofence now uid loc dist events g = Except.ok (some
        { geofence_id := g.id, user_id := uid,
          event_type := EventType.exit,
          latitude := loc.latitude, longitude := loc.longitude,
          distance_meters :=
            dist loc.latitude loc.longitude g.latitude g.longitude,
          created_at := now })) ∧
    (dist loc.latitude loc.longitude g.latitude g.longitude ≤
        g.radius_meters →
      evalGeofence now uid loc dist events g = Except.ok none) := by
  constructor
  · intro hgt
    unfold evalGeofence
    rw [hrec]
    have hin : decide (dist loc.latitude loc.longitude g.latitude
        g.longitude ≤ g.radius_meters) = false :=
      decide_eq_false (not_le.mpr hgt)
    simp [scalarOneOrNone, hin, hexit, henter]
  · intro hle
    unfold evalGeofence
    rw [hrec]
    have hin : decide (dist loc.latitude loc.longitude g.latitude
        g.longitude ≤ g.radius_meters) = true := decide_eq_true hle
    cases hne : g.notify_on_enter <;>
      simp [scalarOneOrNone, hin, hne, henter]

/-- Witness for the amended C1: radius-200 zone with a recent stored
ENTER; a sample at distance 220 emits EXIT, a sample at distance exactly
200 emits nothing. -/
theorem claim_C1_amended_witness :
    evalGeofence 1000 7 ⟨40, -75, none, none⟩ (fun _ _ _ _ => 220)
      [⟨1, 7, EventType.enter, 40, -75, 150, 940⟩]
      ⟨1, 7, "home", 40, -75, 200, true, true, true⟩ =
      Except.ok (some ⟨1, 7, EventType.exit, 40, -75, 220, 1000⟩) ∧
    evalGeofence 1000 7 ⟨40, -75, none, none⟩ (fun _ _ _ _ => 200)
      [⟨1, 7, EventType.enter, 40, -75, 150, 940⟩]
      ⟨1, 7, "home", 40, -75, 200, true, true, true⟩ =
      Except.ok none :=
  ⟨(claim_C1_amended 1000 7 ⟨40, -75, none, none⟩ (fun _ _ _ _ => 220)
      [⟨1, 7, EventType.enter, 40, -75, 150, 940⟩]
      ⟨1, 7, "home", 40, -75, 200, true, true, true⟩
      ⟨1, 7, EventType.enter, 40, -75, 150, 940⟩ rfl rfl rfl).1 (by decide),
   (claim_C1_amended 1000 7 ⟨40, -75, none, none⟩ (fun _ _ _ _ => 200)
      [⟨1, 7, EventType.enter, 40, -75, 150, 940⟩]
      ⟨1, 7, "home", 40, -75, 200, true, true, true⟩
      ⟨1, 7, EventType.enter, 40, -75, 150, 940⟩ rfl rfl rfl).2 (by decide)⟩

/-- Counterexample to C2: two inside samples for the same (user, geofence)
pair, 6 minutes apart, each emit ENTER — two ENTER events with no
intervening EXIT.  The duplicate suppression is only a 5-minute
recent-event window, not persistent membership state, so the claimed
invariant fails once the window expires. -/
theorem claim_C2_counterexample :
    update_location 0 7 ⟨40, -75, none, none⟩ (fun _ _ _ _ => 150)
      ⟨[⟨1, 7, "home", 40, -75, 200, true, true, true⟩], []⟩ =
      (Except.ok [⟨1, 7, EventType.enter, 40, -75, 150, 0⟩],
       ⟨[⟨1, 7, "home", 40, -75, 200, true, true, true⟩],
        [⟨1, 7, EventType.enter, 40, -75, 150, 0⟩]⟩) ∧
    update_location 360 7 ⟨40, -75, none, none⟩ (fun _ _ _ _ => 150)
      ⟨[⟨1, 7, "home", 40, -75, 200, true, true, true⟩],
       [⟨1, 7, EventType.enter, 40, -75, 150, 0⟩]⟩ =
      (Except.ok [⟨1, 7, EventType.enter, 40, -75, 150, 360⟩],
       ⟨[⟨1, 7, "home", 40, -75, 200, true, true, true⟩],
        [⟨1, 7, EventType.enter, 40, -75, 150, 0⟩,
         ⟨1, 7, EventType.enter, 40, -75, 150, 360⟩]⟩) ∧
    (⟨1, 7, EventType.enter, 40, -75, 150, 0⟩ :
      GeofenceEvent).event_type = EventType.enter ∧
    (⟨1, 7, EventType.enter, 40, -75, 150, 360⟩ :
      GeofenceEvent).event_type = EventType.enter ∧
    (∀ ev ∈ ([⟨1, 7, EventType.enter, 40, -75, 150, 0⟩] :
        List GeofenceEvent), ev.event_type ≠ EventType.exit) :=
  ⟨rfl, rfl, rfl, rfl, by decide⟩

/-- Claim C2 amended: deduplication is the 5-minute recent-event window.
When the samples are timed so that at each evaluation exactly the current
episode's latest event lies within the window (server times 0 s, 120 s,
240 s, 330 s; pattern inside, inside, outside, inside), the sequence
produces exactly two ENTER events and one EXIT event, the no-op inside
sample at 120 s emitting nothing; two ENTER events without an intervening
EXIT remain possible once the window expires. -/
theorem claim_C2_amended :
    update_location 0 7 ⟨40, -75, none, none⟩ (fun _ _ _ _ => 150)
      ⟨[⟨1, 7, "home", 40, -75, 200, true, true, true⟩], []⟩ =
      (Except.ok [⟨1, 7, EventType.enter, 40, -75, 150, 0⟩],
       ⟨[⟨1, 7, "home", 40, -75, 200, true, true, true⟩],
        [⟨1, 7, EventType.enter, 40, -75, 150, 0⟩]⟩) ∧
    update_location 120 7 ⟨40, -75, none, none⟩ (fun _ _ _ _ => 150)
      ⟨[⟨1, 7, "home", 40, -75, 200, true, true, true⟩],
       [⟨1, 7, EventType.enter, 40, -75, 150, 0⟩]⟩ =
      (Except.ok [],
       ⟨[⟨1, 7, "home", 40, -75, 200, true, true, true⟩],
        [⟨1, 7, EventType.enter, 40, -75, 150, 0⟩]⟩) ∧
    update_location 240 7 ⟨40, -75, none, none⟩ (fun _ _ _ _ => 300)
      ⟨[⟨1, 7, "home", 40, -75, 200, true, true, true⟩],
       [⟨1, 7, EventType.enter, 40, -75, 150, 0⟩]⟩ =
      (Except.ok [⟨1, 7, EventType.exit, 40, -75, 300, 240⟩],
       ⟨[⟨1, 7, "home", 40, -75, 200, true, true, true⟩],
        [⟨1, 7, EventType.enter, 40, -75, 150, 0⟩,
         ⟨1, 7, EventType.exit, 40, -75, 300, 240⟩]⟩) ∧
    update_location 330 7 ⟨40, -75, none, none⟩ (fun _ _ _ _ => 150)
      ⟨[⟨1, 7, "home", 40, -75, 200, true, true, true⟩],
       [⟨1, 7, EventType.enter, 40, -75, 150, 0⟩,
        ⟨1, 7, EventType.exit, 40, -75, 300, 240⟩]⟩ =
      (Except.ok [⟨1, 7, EventType.enter, 40, -75, 150, 330⟩],
       ⟨[⟨1, 7, "home", 40, -75, 200, true, true, true⟩],
        [⟨1, 7, EventType.enter, 40, -75, 150, 0⟩,
         ⟨1, 7, EventType.exit, 40, -75, 300, 240⟩,
         ⟨1, 7, EventType.enter, 40, -75, 150, 330⟩]⟩) ∧
    ([⟨1, 7, EventType.enter, 40, -75, 150, 0⟩,
      ⟨1, 7, EventType.exit, 40, -75, 300, 240⟩,
      ⟨1, 7, EventType.enter, 40, -75, 150, 330⟩] :
        List GeofenceEvent).map GeofenceEvent.event_type =
      [EventType.enter, EventType.exit, EventType.enter] ∧
    (([⟨1, 7, EventType.enter, 40, -75, 150, 0⟩,
       ⟨1, 7, EventType.exit, 40, -75, 300, 240⟩,
       ⟨1, 7, EventType.enter, 40, -75, 150, 330⟩] :
        List GeofenceEvent).map GeofenceEvent.event_type).count
      EventType.enter = 2 ∧
    (([⟨1, 7, EventType.enter, 40, -75, 150, 0⟩,
       ⟨1, 7, EventType.exit, 40, -75, 300, 240⟩,
       ⟨1, 7, EventType.enter, 40, -75, 150, 330⟩] :
        List GeofenceEvent).map GeofenceEvent.event_type).count
      EventType.exit = 1 :=
  ⟨rfl, rfl, rfl, rfl, rfl, by decide, by decide⟩

/-- Counterexample to C3: the first sample carries timestamp 1000 and is
processed (ENTER); the second sample carries the earlier timestamp 500,
yet it is not discarded — it emits an EXIT event and mutates the stored
state.  There is no stale-sample rejection. -/
theorem claim_C3_counterexample :
    (500:ℤ) < 1000 ∧
    update_location 1000 7 ⟨40, -75, none, some 1000⟩ (fun _ _ _ _ => 150)
      ⟨[⟨1, 7, "home", 40, -75, 200, true, true, true⟩], []⟩ =
      (Except.ok [⟨1, 7, EventType.enter, 40, -75, 150, 1000⟩],
       ⟨[⟨1, 7, "home", 40, -75, 200, true, true, true⟩],
        [⟨1, 7, EventType.enter, 40, -75, 150, 1000⟩]⟩) ∧
    update_location 1060 7 ⟨40, -75, none, some 500⟩ (fun _ _ _ _ => 300)
      ⟨[⟨1, 7, "home", 40, -75, 200, true, true, true⟩],
       [⟨1, 7, EventType.enter, 40, -75, 150, 1000⟩]⟩ =
      (Except.ok [⟨1, 7, EventType.exit, 40, -75, 300, 1060⟩],
       ⟨[⟨1, 7, "home", 40, -75, 200, true, true, true⟩],
        [⟨1, 7, EventType.enter, 40, -75, 150, 1000⟩,
         ⟨1, 7, EventType.exit, 40, -75, 300, 1060⟩]⟩) ∧
    ([⟨1, 7, EventType.exit, 40, -75, 300, 1060⟩] :
      List GeofenceEvent) ≠ [] ∧
    (⟨[⟨1, 7, "home", 40, -75, 200, true, true, true⟩],
      [⟨1, 7, EventType.enter, 40, -75, 150, 1000⟩,
       ⟨1, 7, EventType.exit, 40, -75, 300, 1060⟩]⟩ : DB) ≠
    ⟨[⟨1, 7, "home", 40, -75, 200, true, true, true⟩],
     [⟨1, 7, EventType.enter, 40, -75, 150, 1000⟩]⟩ :=
  ⟨by decide, rfl, rfl, by decide, by decide⟩

/-- The per-geofence evaluation never reads the sample's timestamp
field. -/
theorem evalGeofence_timestamp (now : ℤ) (uid : Nat) (lat lon : ℤ)
    (acc t1 t2 : Option ℤ) (dist : ℤ → ℤ → ℤ → ℤ → ℤ)
    (events : List GeofenceEvent) (g : Geofence) :
    evalGeofence now uid ⟨lat, lon, acc, t1⟩ dist events g =
      evalGeofence now uid ⟨lat, lon, acc, t2⟩ dist events g := rfl

/-- The update_location loop never reads the sample's timestamp field. -/
theorem processGeofences_timestamp (now : ℤ) (uid : Nat) (lat lon : ℤ)
    (acc t1 t2 : Option ℤ) (dist : ℤ → ℤ → ℤ → ℤ → ℤ)
    (events : List GeofenceEvent) :
    ∀ gs : List Geofence,
      processGeofences now uid ⟨lat, lon, acc, t1⟩ dist events gs =
        processGeofences now uid ⟨lat, lon, acc, t2⟩ dist events gs := by
  intro gs
  induction gs with
  | nil => rfl
  | cons g gs ih =>
    unfold processGeofences
    rw [evalGeofence_timestamp now uid lat lon acc t1 t2 dist events g, ih]

/-- Claim C3 amended: no stale-sample rejection exists.  The sample's
timestamp field is never read: update_location behaves identically for
any two timestamps (including an out-of-order one), so an out-of-order
sample is fully evaluated rather than discarded. -/
theorem claim_C3_amended (now : ℤ) (uid : Nat) (lat lon : ℤ)
    (acc t1 t2 : Option ℤ) (dist : ℤ → ℤ → ℤ → ℤ → ℤ) (db : DB) :
    update_location now uid ⟨lat, lon, acc, t1⟩ dist db =
      update_location now uid ⟨lat, lon, acc, t2⟩ dist db := by
  unfold update_location
  rw [processGeofences_timestamp now uid lat lon acc t1 t2 dist db.events]

/-! ## Claims about the CRUD handlers -/

/-- Claim C8: create_geofence enforces the per-user cap of 10 active
geofences — at 10 or more it fails with HTTP 400 and the stated detail,
persisting nothing; below 10 the geofence is created, appended to the
store and returned. -/
theorem claim_C8 (uid newId : Nat) (data : GeofenceCreate) (db : DB) :
    (10 ≤ (activeGeofences uid db).length →
      create_geofence uid newId data db =
        (Except.error (400, "Maximum of 10 active geofences allowed"), db)) ∧
    ((activeGeofences uid db).length < 10 →
      create_geofence uid newId data db =
        (Except.ok (mkGeofence uid newId data),
         { db with geofences :=
            db.geofences ++ [mkGeofence uid newId data] })) := by
  constructor
  · intro h
    unfold create_geofence
    rw [if_pos h]
  · intro h
    unfold create_geofence
    rw [if_neg (not_le.mpr h)]

/-- Witness for C8: a user with 10 identical active zones is rejected
with 400; a user with no zones gets the new geofence created. -/
theorem claim_C8_witness :
    create_geofence 7 99 ⟨"new", 0, 0, 100, true, true, true⟩
      ⟨List.replicate 10 ⟨1, 7, "z", 0, 0, 100, true, true, true⟩, []⟩ =
      (Except.error (400, "Maximum of 10 active geofences allowed"),
       ⟨List.replicate 10 ⟨1, 7, "z", 0, 0, 100, true, true, true⟩, []⟩) ∧
    create_geofence 7 99 ⟨"new", 0, 0, 100, true, true, true⟩ ⟨[], []⟩ =
      (Except.ok (mkGeofence 7 99 ⟨"new", 0, 0, 100, true, true, true⟩),
       ⟨[mkGeofence 7 99 ⟨"new", 0, 0, 100, true, true, true⟩], []⟩) :=
  ⟨(claim_C8 7 99 ⟨"new", 0, 0, 100, true, true, true⟩
      ⟨List.replicate 10 ⟨1, 7, "z", 0, 0, 100, true, true, true⟩, []⟩).1
      (by decide),
   (claim_C8 7 99 ⟨"new", 0, 0, 100, true, true, true⟩ ⟨[], []⟩).2
      (by decide)⟩

/-- When no stored geofence with the requested id belongs to the
requesting user, the owner-scoped lookup is empty. -/
theorem ownedLookup_eq_nil {uid gid : Nat} {db : DB}
    (h : ∀ g ∈ db.geofences, g.id = gid → g.user_id ≠ uid) :
    ownedLookup uid gid db = [] := by
  unfold ownedLookup
  rw [List.filter_eq_nil_iff]
  intro g hg
  simp only [Bool.and_eq_true, beq_iff_eq]
  rintro ⟨hid, huid⟩
  exact h g hg hid huid

/-- Claim C10: get, update and delete are owner-scoped — when the
requested geofence id is not owned by the requesting user (in particular
when it belongs to a different user), each handler answers 404 Not Found
and leaves the stored geofences unmodified. -/
theorem claim_C10 (uid gid : Nat) (data : GeofenceUpdate) (db : DB)
    (h : ∀ g ∈ db.geofences, g.id = gid → g.user_id ≠ uid) :
    get_geofence uid gid db = (Except.error (404, "Geofence not found"), db) ∧
    update_geofence uid gid data db =
      (Except.error (404, "Geofence not found"), db) ∧
    delete_geofence uid gid db =
      (Except.error (404, "Geofence not found"), db) := by
  have hnil := ownedLookup_eq_nil h
  exact ⟨by unfold get_geofence; rw [hnil]; rfl,
    by unfold update_geofence; rw [hnil]; rfl,
    by unfold delete_geofence; rw [hnil]; rfl⟩

/-- Witness for C10: user 1 requests geofence 5, which is owned by
user 2 — all three handlers answer 404 and change nothing. -/
theorem claim_C10_witness :
    get_geofence 1 5 ⟨[⟨5, 2, "z", 0, 0, 100, true, true, true⟩], []⟩ =
      (Except.error (404, "Geofence not found"),
       ⟨[⟨5, 2, "z", 0, 0, 100, true, true, true⟩], []⟩) ∧
    update_geofence 1 5 ⟨none, none, none, none, none, none, none⟩
      ⟨[⟨5, 2, "z", 0, 0, 100, true, true, true⟩], []⟩ =
      (Except.error (404, "Geofence not found"),
       ⟨[⟨5, 2, "z", 0, 0, 100, true, true, true⟩], []⟩) ∧
    delete_geofence 1 5 ⟨[⟨5, 2, "z", 0, 0, 100, true, true, true⟩], []⟩ =
      (Except.error (404, "Geofence not found"),
       ⟨[⟨5, 2, "z", 0, 0, 100, true, true, true⟩], []⟩) :=
  claim_C10 1 5 ⟨none, none, none, none, none, none, none⟩
    ⟨[⟨5, 2, "z", 0, 0, 100, true, true, true⟩], []⟩ (by decide)

/-! ## Geometry lemmas and claims C6, C7 -/

/-- The Haversine distance from a point to itself vanishes. -/
theorem calculate_distance_self (lat lon : ℝ) :
    calculate_distance lat lon lat lon = 0 := by
  simp [calculate_distance]

/-- The Haversine distance is symmetric in its two points. -/
theorem calculate_distance_comm (lat1 lon1 lat2 lon2 : ℝ) :
    calculate_distance lat1 lon1 lat2 lon2 =
      calculate_distance lat2 lon2 lat1 lon1 := by
  have hsin : ∀ x y : ℝ, Real.sin ((x - y) / 2) ^ 2 = Real.sin ((y - x) / 2) ^ 2 := by
    intro x y
    have hxy : (x - y) / 2 = -((y - x) / 2) := by ring
    rw [hxy, Real.sin_neg, neg_sq]
  simp only [calculate_distance]
  rw [hsin (radians lat2) (radians lat1), hsin (radians lon2) (radians lon1),
      mul_comm (Real.cos (radians lat1)) (Real.cos (radians lat2))]

/-- Claim C7: the great-circle distance function is symmetric, and is zero
for identical points. -/
theorem claim_C7 (lat1 lon1 lat2 lon2 : ℝ) :
    calculate_distance lat1 lon1 lat2 lon2 =
      calculate_distance lat2 lon2 lat1 lon1 ∧
    calculate_distance lat1 lon1 lat1 lon1 = 0 :=
  ⟨calculate_distance_comm lat1 lon1 lat2 lon2, calculate_distance_self lat1 lon1⟩

/-- Claim C6: circle containment is true for distance strictly below the
radius, true for distance exactly the radius (inclusive boundary), and
false for distance strictly above the radius. -/
theorem claim_C6 (plat plon clat clon r : ℝ) :
    (calculate_distance plat plon clat clon < r →
      is_point_in_circle plat plon clat clon r) ∧
    (calculate_distance plat plon clat clon = r →
      is_point_in_circle plat plon clat clon r) ∧
    (r < calculate_distance plat plon clat clon →
      ¬ is_point_in_circle plat plon clat clon r) :=
  ⟨fun h => le_of_lt h, fun h => le_of_eq h,
    fun h hc => absurd hc (not_le.mpr h)⟩

/-- Witness for C6 at the concrete point (0,0) against circles centered at
(0,0): radius 1 (distance below), radius 0 (distance equal), radius -1
(distance above). -/
theorem claim_C6_witness :
    is_point_in_circle 0 0 0 0 1 ∧ is_point_in_circle 0 0 0 0 0 ∧
    ¬ is_point_in_circle 0 0 0 0 (-1) := by
  have h0 : calculate_distance 0 0 0 0 = 0 := calculate_distance_self 0 0
  exact ⟨(claim_C6 0 0 0 0 1).1 (by rw [h0]; norm_num),
    (claim_C6 0 0 0 0 0).2.1 h0,
    (claim_C6 0 0 0 0 (-1)).2.2 (by rw [h0]; norm_num)⟩

end PanicAlert
